import Mathlib

/-!
Verification development for the OpenProject → DevLake integration pipeline
(collector / extractor / converter).  The Python sources are shallowly
embedded: JSON field access is modelled with a three-state value type
(absent key / JSON null / present value), Python truthiness is made
explicit at each use site, machine-level details (logging, SQL cursors,
transactions) are dropped, and each store is a Lean list.
-/

/-- Three-state JSON field: the key is absent from the object, the key is
present with JSON `null`, or the key holds a value of type `α`.
`dict.get(key, default)` in Python returns the default only when the key
is absent; a null value comes back as Python `None`. -/
inductive JVal (α : Type) where
  | absent : JVal α
  | null : JVal α
  | val : α → JVal α
deriving DecidableEq, Repr

/-- `dict.get(key, default)` for string fields, tracking Python `None` as
`Option.none` (a null value yields `None`, not the default). -/
def JVal.getStr : JVal String → String → Option String
  | .absent, d => some d
  | .null, _ => none
  | .val s, _ => some s

/-- `dict.get(key)` for integer fields: both an absent key and a null
value come back as Python `None`. -/
def JVal.getInt : JVal Int → Option Int
  | .absent => none
  | .null => none
  | .val i => some i

/-- `bool(dict.get(key, False))` for boolean fields: absent and null are
both falsy. -/
def JVal.getBool : JVal Bool → Bool
  | .absent => false
  | .null => false
  | .val b => b

/-- Python truthiness of an optional string: `None` and `""` are falsy. -/
def strTruthy : Option String → Bool
  | none => false
  | some s => s ≠ ""

/-- Python truthiness of a nullable boolean column. -/
def boolTruthy : Option Bool → Bool
  | none => false
  | some b => b

/-- `x or default` on a nullable string, as in `wp.get('k', '') or 'd'`:
Python `None` and the empty string both fall through to the default. -/
def orDefault (v : Option String) (d : String) : String :=
  match v with
  | none => d
  | some s => if s = "" then d else s

/-- Python `int(...)` applied to a float, i.e. truncation toward zero,
on the rational model of floats: T-division of the numerator by the
(positive) denominator. -/
def pyTrunc (q : ℚ) : Int :=
  q.num.tdiv (q.den : Int)

/-- Truncation of an integral rational is the integer itself. -/
theorem pyTrunc_intCast (n : ℤ) : pyTrunc ((n : ℚ)) = n := by
  unfold pyTrunc
  rw [Rat.num_intCast, Rat.den_intCast]
  simp

/-- Python `str.split(sep)` on character lists: split at every separator
occurrence, keeping empty pieces (`"/x".split('/') == ['', 'x']`,
`"".split('/') == ['']`).  The accumulator holds the current piece
reversed. -/
def pySplitGo (sep : Char) : List Char → List Char → List (List Char)
  | [], acc => [acc.reverse]
  | c :: cs, acc =>
    if c = sep then acc.reverse :: pySplitGo sep cs []
    else pySplitGo sep cs (c :: acc)

/-- Python `s.split(sep)` for a one-character separator. -/
def pySplit (sep : Char) (s : String) : List String :=
  (pySplitGo sep s.data []).map String.mk

/-- Strip leading and trailing whitespace from a character list. -/
def pyStrip (cs : List Char) : List Char :=
  ((cs.dropWhile Char.isWhitespace).reverse.dropWhile Char.isWhitespace).reverse

/-- Decimal value of a digit list. -/
def digitsToNat (cs : List Char) : Nat :=
  cs.foldl (fun n c => n * 10 + (c.toNat - 48)) 0

/-- Python `int(s)` on a string: optional surrounding whitespace, an
optional sign, then at least one digit; any other shape raises
`ValueError`, modelled as `none`. -/
def pyToInt (s : String) : Option Int :=
  let t := pyStrip s.data
  let core := match t with
    | c :: rest => if c = '-' ∨ c = '+' then rest else t
    | [] => t
  if core ≠ [] ∧ core.all Char.isDigit then
    some (if t.headD ' ' = '-' then -(digitsToNat core : Int) else (digitsToNat core : Int))
  else none

/-- A `_links` entry: a JSON object with `href` and `title` fields.  The
surrounding `Option` models Python truthiness of the object itself
(`links.get('project')` returning `None`, or an empty dict). -/
structure LinkObj where
  href : JVal String
  title : JVal String
deriving DecidableEq, Repr

/-- `OpenProjectExtractor._extract_link_info` (extractors, lines 92–111):
derive `(link_id, title)` from a `_links` entry.  A falsy link object
yields `(None, None)`; otherwise the id is `int(href.split('/')[-1])`
when that parse succeeds, else `None`, and the title is
`link_data.get('title', '')`. -/
def extract_link_info : Option LinkObj → Option Int × Option String
  | none => (none, none)
  | some l =>
    let href : Option String := l.href.getStr ""
    let title : Option String := l.title.getStr ""
    let link_id : Option Int :=
      match href with
      | some s =>
        if s ≠ "" then
          match (pySplit '/' s).getLast? with
          | some seg => pyToInt seg
          | none => none
        else none
      | none => none
    (link_id, title)


/-!
## Collector pagination loops (`collectors/openproject_collector.py`)

A page response is `none` when `_make_request` returned a failure dict,
or `some (n, total)` where `n` is the length of `_embedded.elements` and
`total` the server-reported total.  Raw-store writes happen once per
request, so the request counter also counts persisted raw rows.
-/

/-- The shared capped pagination loop of `collect_work_packages`
(lines 274–316), `collect_users` (400–439), `collect_time_entries`
(468–511) and `collect_versions` (581–624): `while page <= max_pages`,
breaking on request failure, an empty element list, or
`total_collected >= total`.  The first argument is the remaining page
budget `max_pages + 1 - page`; the loop is entered with
`remaining = max_pages` and `page = 1`.  Returns
`(requests issued, total_collected)`. -/
def collectCappedGo (api : Nat → Option (Nat × Nat)) :
    Nat → Nat → Nat → Nat → Nat × Nat
  | 0, _, coll, reqs => (reqs, coll)
  | remaining + 1, page, coll, reqs =>
    match api page with
    | none => (reqs + 1, coll)
    | some (n, total) =>
      if n = 0 then (reqs + 1, coll)
      else if total ≤ coll + n then (reqs + 1, coll + n)
      else collectCappedGo api remaining (page + 1) (coll + n) (reqs + 1)

/-- A capped collection run: `page = 1`, `total_collected = 0`. -/
def collectCapped (api : Nat → Option (Nat × Nat)) (maxPages : Nat) : Nat × Nat :=
  collectCappedGo api maxPages 1 0 0

/-- Outcome of running the uncapped projects loop for a bounded number of
iterations: either it is still running after the fuel is spent, or it
finished with `(requests, total_collected)`. -/
inductive LoopResult where
  | running : Nat → LoopResult
  | done : Nat → Nat → LoopResult
deriving DecidableEq, Repr

/-- `collect_projects` (lines 346–388): the same pagination body but
`while True:` — there is no `page <= max_pages` guard.  The first
argument is observation fuel only; `running reqs` means the loop had
issued `reqs` requests and was still iterating when the fuel ran out. -/
def collectProjectsGo (api : Nat → Option (Nat × Nat)) :
    Nat → Nat → Nat → Nat → LoopResult
  | 0, _, _, reqs => .running reqs
  | fuel + 1, page, coll, reqs =>
    match api page with
    | none => .done (reqs + 1) coll
    | some (n, total) =>
      if n = 0 then .done (reqs + 1) coll
      else if total ≤ coll + n then .done (reqs + 1) (coll + n)
      else collectProjectsGo api fuel (page + 1) (coll + n) (reqs + 1)

/-- The server of the pagination example: `total = 37`, `pageSize = 10`,
every page request succeeds, pages return 10, 10, 10 and 7 elements. -/
def api37 : Nat → Option (Nat × Nat) :=
  fun p => some (if p ≤ 3 then 10 else 7, 37)

/-- An adversarial server that keeps returning one element per page with
a reported total that stays ahead of the running count, so the
termination conditions other than the page cap never fire. -/
def overApi : Nat → Option (Nat × Nat) :=
  fun p => some (1, p + 2)



/-!
## The HTTP client `_make_request` (collector, lines 127–192)

One attempt of the `for attempt in range(self.retry_attempts)` loop ends
in one of: a successful response whose JSON body parses (`ok`), a
`requests` timeout, an `HTTPError` carrying a status code (a 429 also
carries the raw `Retry-After` header string when the server sent one),
or a generic `RequestException`.  Sleeps are recorded in order; the rate
limiter (which only paces calls) is not modelled.  The 429 branch
(lines 167–170) runs `retry_after =
int(e.response.headers.get('Retry-After', 60))` and then
`time.sleep(retry_after)` outside any handler, so a header `int` cannot
parse (an HTTP-date, say) or one that parses negative raises
`ValueError` out of `_make_request`; the return type below keeps that
path as `raised`.
-/

/-- HTTP-level outcome of a single request attempt. -/
inductive Outcome where
  | ok : Nat → Outcome
  | timeout : Outcome
  | http : Nat → Option String → Outcome
  | reqError : Outcome
deriving DecidableEq, Repr

/-- Whether the attempt outcome is a successful response. -/
def Outcome.isOk : Outcome → Bool
  | .ok _ => true
  | _ => false

/-- `int(e.response.headers.get('Retry-After', 60))` (line 168): an
absent header falls back to the integer literal 60; a present header is
a string handed to `int`, whose failure (`none` here) raises
`ValueError`. -/
def retryAfterVal : Option String → Option Int
  | none => some 60
  | some s => pyToInt s

/-- The result dict `_make_request` hands back on its normal paths: the
success flag and payload, plus the sleeps performed along the way. -/
structure ReqResult where
  success : Bool
  payload : Option Nat
  sleeps : List Nat
deriving DecidableEq, Repr

/-- What a call of `_make_request` does for its caller: return a result
dict, or let an uncaught `ValueError` (header parse failure or negative
sleep length on the 429 path) propagate. -/
inductive ReqReturn where
  | dict : ReqResult → ReqReturn
  | raised : ReqReturn
deriving DecidableEq, Repr

/-- Record one `time.sleep(d)` in front of a continuing computation. -/
def withSleep (d : Nat) (r : ReqResult) : ReqResult :=
  ⟨r.success, r.payload, d :: r.sleeps⟩

/-- `time.sleep(d)` in front of a continuing call: a later raise stays a
raise. -/
def sleepThen (d : Nat) : ReqReturn → ReqReturn
  | .dict r => .dict (withSleep d r)
  | .raised => .raised

/-- The retry loop of `_make_request`.  The fuel argument is the number
of loop iterations left, `n - attempt`; exhausted fuel is the `for` loop
ending, which falls through to the failure dict of lines 187–192.
On timeout, 5xx and generic request errors the code sleeps
`2 ** attempt` only when `attempt < retry_attempts - 1` and goes to the
next iteration; on 429 it parses the `Retry-After` header — raising
`ValueError` when `int` fails or when the parsed value is negative
(`time.sleep` rejects it) — then sleeps that long and `continue`s, which
also advances `attempt`; any other `HTTPError` status `break`s out to
the failure dict. -/
def makeRequestGo (outcomes : Nat → Outcome) (n : Nat) :
    Nat → Nat → ReqReturn
  | 0, _ => .dict ⟨false, none, []⟩
  | fuel + 1, attempt =>
    match outcomes attempt with
    | .ok p => .dict ⟨true, some p, []⟩
    | .timeout =>
      if attempt < n - 1 then
        sleepThen (2 ^ attempt) (makeRequestGo outcomes n fuel (attempt + 1))
      else makeRequestGo outcomes n fuel (attempt + 1)
    | .http status retryAfter =>
      if status = 429 then
        match retryAfterVal retryAfter with
        | none => .raised
        | some v =>
          if v < 0 then .raised
          else sleepThen v.toNat (makeRequestGo outcomes n fuel (attempt + 1))
      else if status = 500 ∨ status = 502 ∨ status = 503 ∨ status = 504 then
        if attempt < n - 1 then
          sleepThen (2 ^ attempt) (makeRequestGo outcomes n fuel (attempt + 1))
        else makeRequestGo outcomes n fuel (attempt + 1)
      else .dict ⟨false, none, []⟩
    | .reqError =>
      if attempt < n - 1 then
        sleepThen (2 ^ attempt) (makeRequestGo outcomes n fuel (attempt + 1))
      else makeRequestGo outcomes n fuel (attempt + 1)

/-- `OpenProjectCollector._make_request`, given the outcome of each
attempt and the configured `retry_attempts`. -/
def make_request (outcomes : Nat → Outcome) (retry_attempts : Nat) : ReqReturn :=
  makeRequestGo outcomes retry_attempts retry_attempts 0

/-- An attempt outcome that cannot reach the `ValueError` paths: any 429
it carries has an absent `Retry-After` header or one parsing to a
nonnegative integer; every other outcome is unconditionally safe. -/
def Outcome.goodRetryAfter : Outcome → Bool
  | .http status ra =>
    if status = 429 then
      match retryAfterVal ra with
      | some v => decide (0 ≤ v)
      | none => false
    else true
  | _ => true

/-- Attempt outcomes exercising the 429 budget: two rate-limit responses
in a row, then a success that a third attempt would reach. -/
def outcomes429Budget : Nat → Outcome :=
  fun i => if i < 2 then .http 429 (some "1") else .ok 7

/-- Attempt outcomes exercising the backoff exponent after a 429:
`Retry-After: 5`, then two timeouts, then a success. -/
def outcomes429Backoff : Nat → Outcome :=
  fun i =>
    if i = 0 then .http 429 (some "5") else if i ≤ 2 then .timeout else .ok 7

/-- 429 responses whose `Retry-After` header is an RFC-7231 HTTP-date,
which Python's `int` refuses. -/
def outcomesHttpDate : Nat → Outcome :=
  fun _ => .http 429 (some "Fri, 31 Dec 1999 23:59:59 GMT")

/-- 429 responses whose `Retry-After` header parses to a negative
number, which `time.sleep` refuses. -/
def outcomesNegative : Nat → Outcome :=
  fun _ => .http 429 (some "-5")



/-!
## Extractor (`extractors/openproject_extractor.py`)

A raw store is a list of rows in `created_at` order (oldest first); each
row's `data` column, once JSON-parsed, is `none` when NULL or
`some elements` with the page's `_embedded.elements` array.  Elements
carry the fields the extractor reads; fields that no claim touches
(dates, durations, custom-field bags, the remaining link kinds, which
are each handled by the one pattern shown) are omitted.  Tool rows keep
the dict keys of the corresponding `INSERT`.
-/

/-- A work-package element, fields read by
`_extract_work_package_data` (lines 230–357). -/
structure WPElement where
  id : JVal Int
  subject : JVal String
  project : Option LinkObj
  status : Option LinkObj
  assignee : Option LinkObj
deriving DecidableEq, Repr

/-- A `_tool_openproject_work_packages` row (subset of the dict built by
`_extract_work_package_data`). -/
structure ToolWorkPackage where
  connection_id : Int
  id : Option Int
  subject : Option String
  project_id : Option Int
  project_name : Option String
  status_id : Option Int
  status_name : Option String
  status_is_closed : Bool
  assignee_id : Option Int
  assignee_name : Option String
deriving DecidableEq, Repr

/-- `_extract_work_package_data`: flatten one element into a tool row
(modelled fields; `status_is_closed` is hard-coded `False` at line 289,
to be updated by the reference resolver). -/
def extract_work_package_data (connId : Int) (e : WPElement) : ToolWorkPackage :=
  let proj := extract_link_info e.project
  let stat := extract_link_info e.status
  let asg := extract_link_info e.assignee
  { connection_id := connId
    id := e.id.getInt
    subject := e.subject.getStr ""
    project_id := proj.1
    project_name := proj.2
    status_id := stat.1
    status_name := stat.2
    status_is_closed := false
    assignee_id := asg.1
    assignee_name := asg.2 }

/-- A time-entry element, fields read by `extract_time_entries`
(lines 624–661). -/
structure TEElement where
  id : JVal Int
  comment : JVal String
  workPackage : Option LinkObj
  user : Option LinkObj
deriving DecidableEq, Repr

/-- A `_tool_openproject_time_entries` row (modelled subset). -/
structure ToolTimeEntry where
  connection_id : Int
  id : Option Int
  comment : Option String
  work_package_id : Option Int
  work_package_title : String
  user_id : Option Int
  user_name : String
deriving DecidableEq, Repr

/-- Build one time-entry tool row from an element (lines 629–661;
`str(wp_title or '')` collapses `None` and `''` to `''`). -/
def extract_time_entry_data (connId : Int) (e : TEElement) : ToolTimeEntry :=
  let wp := extract_link_info e.workPackage
  let usr := extract_link_info e.user
  { connection_id := connId
    id := e.id.getInt
    comment := e.comment.getStr ""
    work_package_id := wp.1
    work_package_title := (wp.2.getD "")
    user_id := usr.1
    user_name := (usr.2.getD "") }

/-- The shared per-page element loop of `extract_work_packages`
(lines 196–209) and `extract_time_entries` (lines 624–689): an element
whose id is falsy (`None` or `0`) or already in the per-run set is
skipped; otherwise its row is written and the id recorded.  Returns the
rows written for this page and the updated set. -/
def extractElemsGo (getId : α → Option Int) (mk : α → β) :
    List α → List Int → List β × List Int
  | [], seen => ([], seen)
  | e :: es, seen =>
    match getId e with
    | some i =>
      if i = 0 ∨ i ∈ seen then extractElemsGo getId mk es seen
      else
        let r := extractElemsGo getId mk es (i :: seen)
        (mk e :: r.1, r.2)
    | none => extractElemsGo getId mk es seen

/-- The outer loop over raw pages, threading the per-run dedup set
(`processed_wp_ids` / `processed_te_ids`) from page to page. -/
def extractPagesGo (getId : α → Option Int) (mk : α → β) :
    List (List α) → List Int → List β
  | [], _ => []
  | pg :: pgs, seen =>
    let r := extractElemsGo getId mk pg seen
    r.1 ++ extractPagesGo getId mk pgs r.2

/-- `extract_work_packages` (lines 144–228): every raw row with non-null
data is read (the `LIMIT %s OFFSET %s` batches of 50 walk the same
filtered row set in order, committing per batch, so they amount to one
sequential pass) and the element loop runs with the per-run set. -/
def extract_work_packages (connId : Int)
    (raws : List (Option (List WPElement))) : List ToolWorkPackage :=
  extractPagesGo (fun e => e.id.getInt) (extract_work_package_data connId)
    (raws.filterMap id) []

/-- `extract_time_entries` (lines 593–705): all non-null raw rows,
`ORDER BY created_at DESC` (newest first), one pass with the per-run
set. -/
def extract_time_entries (connId : Int)
    (raws : List (Option (List TEElement))) : List ToolTimeEntry :=
  extractPagesGo (fun e => e.id.getInt) (extract_time_entry_data connId)
    (raws.filterMap id).reverse []

/-- A project element, fields read by `extract_projects`
(lines 442–470). -/
structure ProjElement where
  id : JVal Int
  identifier : JVal String
  name : JVal String
  public : JVal Bool
  parent : Option LinkObj
deriving DecidableEq, Repr

/-- A `_tool_openproject_projects` row (modelled subset). -/
structure ToolProject where
  connection_id : Int
  id : Option Int
  identifier : Option String
  name : Option String
  is_public : Bool
  parent_id : Option Int
  parent_name : String
deriving DecidableEq, Repr

/-- Build one project tool row (lines 442–470): the parent link goes
through `_extract_link_info` when truthy, and `parent_name or ''`
collapses `None` to `''`. -/
def extract_project_data (connId : Int) (e : ProjElement) : ToolProject :=
  let par : Option Int × Option String :=
    match e.parent with
    | none => (none, none)
    | some l => extract_link_info (some l)
  { connection_id := connId
    id := e.id.getInt
    identifier := e.identifier.getStr ""
    name := e.name.getStr ""
    is_public := e.public.getBool
    parent_id := par.1
    parent_name := par.2.getD "" }

/-- `extract_projects` (lines 413–504): the raw-store read is
`SELECT data ... ORDER BY created_at DESC LIMIT 1`, i.e. only the most
recently created row with non-null data is fetched; with no such row the
function returns without writing.  Only that single page's elements are
parsed and inserted. -/
def extract_projects (connId : Int)
    (raws : List (Option (List ProjElement))) : List ToolProject :=
  match (raws.filterMap id).getLast? with
  | none => []
  | some elements => elements.map (extract_project_data connId)

/-- A user element, fields read by `extract_users` (lines 535–552). -/
structure UserElement where
  id : JVal Int
  login : JVal String
  name : JVal String
  email : JVal String
  admin : JVal Bool
deriving DecidableEq, Repr

/-- A `_tool_openproject_users` row (modelled subset; the `mail` column
is fed from the element's `email` key). -/
structure ToolUser where
  connection_id : Int
  id : Option Int
  login : Option String
  name : Option String
  mail : Option String
  admin : Bool
deriving DecidableEq, Repr

/-- Build one user tool row (lines 535–552). -/
def extract_user_data (connId : Int) (e : UserElement) : ToolUser :=
  { connection_id := connId
    id := e.id.getInt
    login := e.login.getStr ""
    name := e.name.getStr ""
    mail := e.email.getStr ""
    admin := e.admin.getBool }

/-- `extract_users` (lines 506–591): same
`ORDER BY created_at DESC LIMIT 1` shape as `extract_projects` — only
the newest non-null raw row is parsed. -/
def extract_users (connId : Int)
    (raws : List (Option (List UserElement))) : List ToolUser :=
  match (raws.filterMap id).getLast? with
  | none => []
  | some elements => elements.map (extract_user_data connId)

/-- A bare project element with only an id, for concrete stores. -/
def projElem (i : Int) : ProjElement :=
  ⟨.val i, .absent, .absent, .absent, none⟩

/-- A two-row project raw store: the older non-null row holds project 1,
the newer non-null row holds project 2. -/
def projRawsEx : List (Option (List ProjElement)) :=
  [some [projElem 1], some [projElem 2]]


/-!
## Domain converter (`converters/openproject_converter.py`)

Datetimes are epoch seconds (`ℤ`); a `datetime` object is always truthy
in Python, so presence alone decides the `if wp.get(...)` guards on
them.  Hours columns are rationals (the float model); `0.0` is falsy.
The domain `issues` table is a list of `Issue` rows.
-/

/-- `self.type_mappings` (converter, lines 23–37). -/
def type_mappings : List (String × String) :=
  [("Feature", "REQUIREMENT"), ("Bug", "BUG"), ("Support", "REQUIREMENT"),
   ("Incident", "INCIDENT"), ("Task", "REQUIREMENT"), ("Epic", "REQUIREMENT"),
   ("User Story", "REQUIREMENT"), ("Defect", "BUG"),
   ("Enhancement", "REQUIREMENT"), ("Story", "REQUIREMENT"),
   ("Summary task", "REQUIREMENT"), ("Phase", "REQUIREMENT"),
   ("Milestone", "REQUIREMENT")]

/-- `self.status_mappings` (converter, lines 39–57). -/
def status_mappings : List (String × String) :=
  [("New", "TODO"), ("Open", "TODO"), ("In progress", "DOING"),
   ("In Progress", "DOING"), ("In development", "DOING"),
   ("In Development", "DOING"), ("In review", "DOING"),
   ("In Review", "DOING"), ("Testing", "DOING"), ("On hold", "TODO"),
   ("Blocked", "TODO"), ("Closed", "DONE"), ("Resolved", "DONE"),
   ("Done", "DONE"), ("Completed", "DONE"), ("Rejected", "DONE"),
   ("Cancelled", "DONE")]

/-- `mapping.get(key, default)` on an association list. -/
def lookupD (m : List (String × String)) (k d : String) : String :=
  match m.find? (fun p => p.1 == k) with
  | some p => p.2
  | none => d

/-- One row of the `convert_issues` source query (lines 133–139):
`wp.*` joined with the project's `identifier` and the status table's
`is_closed` flag (both nullable through the LEFT JOINs). -/
structure WpJoined where
  id : Int
  subject : Option String
  description : Option String
  type_name : Option String
  status_name : Option String
  status_is_closed : Option Bool
  created_at : Option Int
  updated_at : Option Int
  estimated_hours : Option ℚ
  spent_hours : Option ℚ
  parent_id : Option Int
  priority_name : Option String
  author_id : Option Int
  author_name : Option String
  assignee_id : Option Int
  assignee_name : Option String
  category_name : Option String
  project_name : Option String
  project_identifier : Option String
  project_id : Option Int
deriving DecidableEq, Repr

/-- A domain `issues` row: exactly the keys of the dict built at
lines 234–260 (note there is no remaining-estimate key). -/
structure Issue where
  id : String
  issue_key : String
  url : String
  title : Option String
  description : Option String
  type : String
  original_type : String
  status : String
  original_status : String
  story_point : Option Int
  resolution_date : Option Int
  created_date : Option Int
  updated_date : Option Int
  lead_time_minutes : Option Int
  parent_issue_id : Option String
  priority : Option String
  creator_id : Option String
  creator_name : Option String
  assignee_id : Option String
  assignee_name : Option String
  severity : Option String
  component : Option String
  original_project : Option String
  icon_url : Option String
deriving DecidableEq, Repr

/-- The id prefix `openproject:WorkPackages:{connection_id}:` used both
by the delete at lines 145–148 and by the generated domain id. -/
def wpIdPref (connId : Int) : String :=
  "openproject:WorkPackages:" ++ toString connId ++ ":"

/-- `openproject:WorkPackages:{connection_id}:{wp['id']}` (line 183). -/
def mkIssueId (connId : Int) (nativeId : Int) : String :=
  wpIdPref connId ++ toString nativeId

/-- `openproject:Users:{connection_id}:{user_id}` (lines 252, 254). -/
def mkUserId (connId : Int) (nativeId : Int) : String :=
  "openproject:Users:" ++ toString connId ++ ":" ++ toString nativeId

/-- Lines 210–212: `estimated_minutes = int(estimated_hours * 60)` only
when `wp.get('estimated_hours')` is truthy (not `None`, not `0.0`). -/
def estimated_minutes (wp : WpJoined) : Option Int :=
  match wp.estimated_hours with
  | some h => if h ≠ 0 then some (pyTrunc (h * 60)) else none
  | none => none

/-- Lines 214–216: same for `spent_hours`. -/
def spent_minutes (wp : WpJoined) : Option Int :=
  match wp.spent_hours with
  | some h => if h ≠ 0 then some (pyTrunc (h * 60)) else none
  | none => none

/-- Lines 219–221: `remaining_minutes = max(0, estimated_minutes -
spent_minutes)` guarded by `if estimated_minutes and spent_minutes:` —
both must be non-`None` and non-zero.  Computed by
`_convert_work_package_to_issue` but not placed in the issue dict. -/
def remaining_minutes (wp : WpJoined) : Option Int :=
  match estimated_minutes wp, spent_minutes wp with
  | some em, some sm => if em ≠ 0 ∧ sm ≠ 0 then some (max 0 (em - sm)) else none
  | _, _ => none

/-- Lines 197–207: lead time in whole minutes between `created_at` and
`updated_at` when both are present (`int` truncates toward zero). -/
def lead_time_of (wp : WpJoined) : Option Int :=
  match wp.created_at, wp.updated_at with
  | some c, some u => some (pyTrunc (((u - c : Int) : ℚ) / 60))
  | _, _ => none

/-- `OpenProjectConverter._convert_work_package_to_issue`
(lines 178–266).  Type and status go through the static dictionaries
with `REQUIREMENT` / `TODO` defaults, after the `or 'Task'` / `or 'New'`
fallbacks; a truthy joined `status_is_closed` then overrides the status
to `DONE` (lines 194–195). -/
def convert_work_package_to_issue (connId : Int) (baseUrl : String)
    (wp : WpJoined) : Issue :=
  let domain_id := mkIssueId connId wp.id
  let original_type := orDefault wp.type_name "Task"
  let mapped_type := lookupD type_mappings original_type "REQUIREMENT"
  let original_status := orDefault wp.status_name "New"
  let mapped_status0 := lookupD status_mappings original_status "TODO"
  let mapped_status :=
    if boolTruthy wp.status_is_closed then "DONE" else mapped_status0
  let resolution_date :=
    if mapped_status = "DONE" then wp.updated_at else none
  { id := domain_id
    issue_key := "WP-" ++ toString wp.id
    url := baseUrl ++ "/work_packages/" ++ toString wp.id
    title := wp.subject
    description := wp.description
    type := mapped_type
    original_type := original_type
    status := mapped_status
    original_status := original_status
    story_point := estimated_minutes wp
    resolution_date := resolution_date
    created_date := wp.created_at
    updated_date := wp.updated_at
    lead_time_minutes := lead_time_of wp
    parent_issue_id :=
      match wp.parent_id with
      | some p => if p ≠ 0 then some (mkIssueId connId p) else none
      | none => none
    priority := wp.priority_name
    creator_id :=
      match wp.author_id with
      | some a => if a ≠ 0 then some (mkUserId connId a) else none
      | none => none
    creator_name := wp.author_name
    assignee_id :=
      match wp.assignee_id with
      | some a => if a ≠ 0 then some (mkUserId connId a) else none
      | none => none
    assignee_name := wp.assignee_name
    severity := wp.priority_name
    component := wp.category_name
    original_project := wp.project_name
    icon_url := none }

/-- SQL `LIKE 'pref%'` on ids: a literal-prefix match. -/
def likePref (pref s : String) : Bool :=
  pref.data.isPrefixOf s.data

/-- `convert_issues` (lines 123–176) acting on the domain `issues`
table: delete every row whose id matches
`openproject:WorkPackages:{connection_id}:%`, then insert the conversion
of each tool work package of the connection. -/
def convert_issues (connId : Int) (baseUrl : String)
    (wps : List WpJoined) (issues : List Issue) : List Issue :=
  let kept := issues.filter (fun i => !likePref (wpIdPref connId) i.id)
  kept ++ wps.map (convert_work_package_to_issue connId baseUrl)

/-- A joined work-package row with every nullable column NULL, for
concrete instances. -/
def wpBlank (i : Int) : WpJoined :=
  ⟨i, none, none, none, none, none, none, none, none, none, none, none,
   none, none, none, none, none, none, none, none⟩



/-!
## Helper lemmas
-/

/-- The capped loop issues at most one request per remaining page. -/
theorem collectCappedGo_requests_le (api : Nat → Option (Nat × Nat)) :
    ∀ (remaining page coll reqs : Nat),
      (collectCappedGo api remaining page coll reqs).1 ≤ reqs + remaining
  | 0, _, _, _ => Nat.le_refl _
  | remaining + 1, page, coll, reqs => by
    unfold collectCappedGo
    cases h : api page with
    | none => simp only; omega
    | some nt =>
      obtain ⟨n, total⟩ := nt
      by_cases hn : n = 0
      · simp only [hn, if_true]; omega
      · by_cases ht : total ≤ coll + n
        · simp only [hn, ht, if_true, if_false]; omega
        · simp only [hn, ht, if_false]
          have := collectCappedGo_requests_le api remaining (page + 1) (coll + n) (reqs + 1)
          omega

/-- Against `overApi` the uncapped projects loop never terminates: every
iteration issues a request and recurses. -/
theorem collectProjectsGo_overApi :
    ∀ (fuel page coll reqs : Nat), coll ≤ page →
      collectProjectsGo overApi fuel page coll reqs = .running (reqs + fuel)
  | 0, _, _, _, _ => rfl
  | fuel + 1, page, coll, reqs, h => by
    unfold collectProjectsGo
    have h1 : ¬ (page + 2 ≤ coll + 1) := by omega
    simp only [overApi, h1, if_false, one_ne_zero]
    have h2 := collectProjectsGo_overApi fuel (page + 1) (coll + 1) (reqs + 1) (by omega)
    rw [h2]
    congr 1
    omega

/-- The result-dict shape invariant of `make_request`: a success flag
with a payload, or a failure flag with none. -/
def ReqResult.wf (r : ReqResult) : Prop :=
  (r.success = true ∧ ∃ p, r.payload = some p) ∨
  (r.success = false ∧ r.payload = none)

/-- On outcome sequences that never reach the 429 `ValueError` paths,
every run of the retry loop returns a well-formed result dict, and a
failure dict when no attempt ever succeeds. -/
theorem makeRequestGo_good (outcomes : Nat → Outcome) (n : Nat)
    (hgood : ∀ i, (outcomes i).goodRetryAfter = true) :
    ∀ (fuel attempt : Nat), ∃ r : ReqResult,
      makeRequestGo outcomes n fuel attempt = .dict r ∧ r.wf ∧
        ((∀ i, (outcomes i).isOk = false) → r.success = false)
  | 0, _ => ⟨⟨false, none, []⟩, rfl, Or.inr ⟨rfl, rfl⟩, fun _ => rfl⟩
  | fuel + 1, attempt => by
    obtain ⟨r, hr, hwf, hfail⟩ :=
      makeRequestGo_good outcomes n hgood fuel (attempt + 1)
    unfold makeRequestGo
    cases ho : outcomes attempt with
    | ok p =>
      refine ⟨⟨true, some p, []⟩, rfl, Or.inl ⟨rfl, p, rfl⟩, fun hno => ?_⟩
      have hk := hno attempt
      rw [ho] at hk
      simp [Outcome.isOk] at hk
    | timeout =>
      by_cases hc : attempt < n - 1
      · refine ⟨withSleep (2 ^ attempt) r, ?_, hwf, hfail⟩
        simp only [hc, if_true]
        rw [hr]
        rfl
      · exact ⟨r, by simp only [hc, if_false]; exact hr, hwf, hfail⟩
    | http status retryAfter =>
      by_cases h429 : status = 429
      · have hg := hgood attempt
        rw [ho] at hg
        simp only [Outcome.goodRetryAfter, h429, if_true] at hg
        cases hv : retryAfterVal retryAfter with
        | none =>
          rw [hv] at hg
          simp at hg
        | some v =>
          rw [hv] at hg
          simp only [decide_eq_true_eq] at hg
          have hvneg : ¬ v < 0 := by omega
          refine ⟨withSleep v.toNat r, ?_, hwf, hfail⟩
          simp only [h429, if_true, hv]
          rw [if_neg hvneg, hr]
          rfl
      · by_cases h5 : status = 500 ∨ status = 502 ∨ status = 503 ∨ status = 504
        · simp only [h429, h5, if_false, if_true]
          by_cases hc : attempt < n - 1
          · refine ⟨withSleep (2 ^ attempt) r, ?_, hwf, hfail⟩
            simp only [hc, if_true]
            rw [hr]
            rfl
          · exact ⟨r, by simp only [hc, if_false]; exact hr, hwf, hfail⟩
        · exact ⟨⟨false, none, []⟩, by simp only [h429, h5, if_false],
            Or.inr ⟨rfl, rfl⟩, fun _ => rfl⟩
    | reqError =>
      by_cases hc : attempt < n - 1
      · refine ⟨withSleep (2 ^ attempt) r, ?_, hwf, hfail⟩
        simp only [hc, if_true]
        rw [hr]
        rfl
      · exact ⟨r, by simp only [hc, if_false]; exact hr, hwf, hfail⟩

/-- Element-loop invariant: for a valid id `v`, the rows written for one
page contain exactly one row with id `v` when `v` occurs among the
page's element ids and was not yet in the per-run set, and the updated
set holds `v` exactly when the page mentioned it or it was already
there. -/
theorem extractElemsGo_spec {α β : Type} (getId : α → Option Int) (mk : α → β)
    (rid : β → Option Int) (hmk : ∀ e, rid (mk e) = getId e)
    (v : Int) (hv : v ≠ 0) :
    ∀ (es : List α) (seen : List Int),
      (((extractElemsGo getId mk es seen).1.map rid).count (some v)
        = if some v ∈ es.map getId ∧ v ∉ seen then 1 else 0)
      ∧ (v ∈ (extractElemsGo getId mk es seen).2 ↔
          some v ∈ es.map getId ∨ v ∈ seen)
  | [], seen => by simp [extractElemsGo]
  | e :: es, seen => by
    cases hg : getId e with
    | none =>
      have ih := extractElemsGo_spec getId mk rid hmk v hv es seen
      simp only [extractElemsGo, hg, List.map_cons]
      refine ⟨?_, ?_⟩
      · rw [ih.1]; simp
      · rw [ih.2]; simp
    | some i =>
      by_cases hskip : i = 0 ∨ i ∈ seen
      · have ih := extractElemsGo_spec getId mk rid hmk v hv es seen
        simp only [extractElemsGo, hg, if_pos hskip, List.map_cons]
        by_cases hvi : v = i
        · subst hvi
          rcases hskip with h0 | hin
          · exact absurd h0 hv
          · refine ⟨?_, ?_⟩
            · rw [ih.1]; simp [hin]
            · rw [ih.2]; simp [hin]
        · refine ⟨?_, ?_⟩
          · rw [ih.1]
            simp [List.mem_cons, hvi]
          · rw [ih.2]
            simp [List.mem_cons, hvi]
      · push_neg at hskip
        have ih := extractElemsGo_spec getId mk rid hmk v hv es (i :: seen)
        simp only [extractElemsGo, hg, if_neg (by tauto : ¬ (i = 0 ∨ i ∈ seen)),
          List.map_cons]
        refine ⟨?_, ?_⟩
        · rw [List.count_cons, hmk e, hg, ih.1]
          by_cases hvi : v = i
          · subst hvi
            simp [List.mem_cons, hskip.2]
          · simp [List.mem_cons, hvi, Ne.symm hvi]
        · rw [ih.2]
          by_cases hvi : v = i
          · subst hvi
            simp [List.mem_cons]
          · simp [List.mem_cons, hvi]

/-- Page-loop invariant: across all pages of a run, a valid id yields
exactly one row when some page mentions it and it was not pre-seen. -/
theorem extractPagesGo_count {α β : Type} (getId : α → Option Int) (mk : α → β)
    (rid : β → Option Int) (hmk : ∀ e, rid (mk e) = getId e)
    (v : Int) (hv : v ≠ 0) :
    ∀ (pgs : List (List α)) (seen : List Int),
      ((extractPagesGo getId mk pgs seen).map rid).count (some v)
        = if (∃ pg ∈ pgs, some v ∈ pg.map getId) ∧ v ∉ seen then 1 else 0
  | [], seen => by simp [extractPagesGo]
  | pg :: pgs, seen => by
    have he := extractElemsGo_spec getId mk rid hmk v hv pg seen
    have ih := extractPagesGo_count getId mk rid hmk v hv pgs
      ((extractElemsGo getId mk pg seen).2)
    simp only [extractPagesGo, List.map_append, List.count_append]
    rw [he.1, ih]
    simp only [he.2, List.exists_mem_cons_iff, not_or]
    by_cases hA : some v ∈ pg.map getId <;> by_cases hB : v ∈ seen <;>
      by_cases hC : ∃ x ∈ pgs, some v ∈ x.map getId <;>
      simp [hA, hB, hC]

/-- A character list is a prefix of itself extended by anything. -/
theorem isPrefixOf_append_self : ∀ (l t : List Char), l.isPrefixOf (l ++ t) = true
  | [], _ => by simp
  | a :: as, t => by
    rw [List.cons_append, List.isPrefixOf_cons₂, isPrefixOf_append_self as t]
    simp

/-- Appending strings appends their character data. -/
theorem string_data_append (s t : String) : (s ++ t).data = s.data ++ t.data := rfl

/-- Every generated issue id matches the connection's LIKE pattern. -/
theorem likePref_mkIssueId (connId nativeId : Int) :
    likePref (wpIdPref connId) (mkIssueId connId nativeId) = true := by
  unfold likePref mkIssueId
  rw [string_data_append]
  exact isPrefixOf_append_self _ _

/-- Filtering with the same predicate twice filters once. -/
theorem filter_idem {α : Type} (p : α → Bool) (l : List α) :
    (l.filter p).filter p = l.filter p := by
  induction l with
  | nil => rfl
  | cons a l ih =>
    by_cases h : p a <;> simp [List.filter_cons, h, ih]

/-- The id field of a converted issue (line 183). -/
theorem convert_issue_id (connId : Int) (baseUrl : String) (wp : WpJoined) :
    (convert_work_package_to_issue connId baseUrl wp).id = mkIssueId connId wp.id := rfl

/-- No freshly converted issue survives the connection's delete-by-prefix
filter. -/
theorem filter_converted_nil (connId : Int) (baseUrl : String) (wps : List WpJoined) :
    (wps.map (convert_work_package_to_issue connId baseUrl)).filter
      (fun i => !likePref (wpIdPref connId) i.id) = [] := by
  induction wps with
  | nil => rfl
  | cons wp wps ih =>
    simp [List.filter_cons, convert_issue_id, likePref_mkIssueId, ih]

/-!
## Claims
-/

/-- C3: when the server reports `total = 37` with page size 10 and every
page request succeeds returning 10, 10, 10 and 7 elements, the
work-package collection loop issues exactly 4 page requests and collects
37; in general a page whose element count is nonzero and brings the
running total up to the reported total ends the loop immediately. -/
theorem C3_pagination_termination :
    collectCapped api37 1000 = (4, 37) ∧
    ∀ (api : Nat → Option (Nat × Nat)) (r page coll reqs n total : Nat),
      api page = some (n, total) → n ≠ 0 → total ≤ coll + n →
      collectCappedGo api (r + 1) page coll reqs = (reqs + 1, coll + n) := by
  refine ⟨by decide, ?_⟩
  intro api r page coll reqs n total h hn ht
  unfold collectCappedGo
  simp [h, hn, ht]

theorem C3_witness : collectCappedGo api37 997 4 30 3 = (4, 37) := by
  have h := C3_pagination_termination.2 api37 996 4 30 3 7 37 rfl
    (by decide) (by decide)
  exact h

/-- C4 (amended): the capped loops shared by work packages, users, time
entries and versions issue at most `max_pages` requests against any
server behaviour; the projects loop, in contrast, has no cap check and
keeps iterating for any amount of fuel against a server whose reported
total keeps running ahead. -/
theorem C4_max_pages_cap :
    (∀ (api : Nat → Option (Nat × Nat)) (maxPages : Nat),
      (collectCapped api maxPages).1 ≤ maxPages) ∧
    ∀ fuel : Nat, collectProjectsGo overApi fuel 1 0 0 = .running fuel := by
  constructor
  · intro api maxPages
    have h := collectCappedGo_requests_le api maxPages 1 0 0
    simpa using h
  · intro fuel
    have h := collectProjectsGo_overApi fuel 1 0 0 (by omega)
    simpa using h

/-- C4 counterexample: with a configured cap of 50 pages, the projects
loop is still iterating after 51 page requests — the claim that every
entity-type loop stops within `max_pages` requests fails for
`collect_projects`. -/
theorem C4_counterexample :
    collectProjectsGo overApi 51 1 0 0 = LoopResult.running 51 ∧ ¬ 51 ≤ 50 := by
  decide

/-- C5 (amended): over outcome sequences whose 429 responses carry an
absent `Retry-After` header or one parsing to a nonnegative integer,
`_make_request` returns a well-formed result dict — success with a
payload or failure with none — and when no attempt ever succeeds the
returned dict has `success = False`.  A 429 whose header `int` cannot
parse, or whose parsed value is negative, instead lets a `ValueError`
propagate to the caller (lines 168–170). -/
theorem C5_make_request_result (outcomes : Nat → Outcome) (n : Nat)
    (hgood : ∀ i, (outcomes i).goodRetryAfter = true) :
    (∃ r : ReqResult, make_request outcomes n = .dict r ∧
      ((r.success = true ∧ ∃ p, r.payload = some p) ∨
        (r.success = false ∧ r.payload = none))) ∧
    ((∀ i, (outcomes i).isOk = false) →
      ∃ r : ReqResult, make_request outcomes n = .dict r ∧
        r.success = false) := by
  obtain ⟨r, hr, hwf, hfail⟩ := makeRequestGo_good outcomes n hgood n 0
  exact ⟨⟨r, hr, hwf⟩, fun hno => ⟨r, hr, hfail hno⟩⟩

theorem C5_witness :
    ∃ r : ReqResult, make_request (fun _ => Outcome.timeout) 3 = .dict r ∧
      r.success = false :=
  (C5_make_request_result (fun _ => Outcome.timeout) 3 (fun _ => rfl)).2
    (fun _ => rfl)

/-- C5 counterexample: a 429 whose `Retry-After` header is an RFC-7231
HTTP-date makes `int` raise, and one whose header parses to −5 makes
`time.sleep` raise: on both outcome sequences `_make_request` lets the
`ValueError` propagate instead of returning a result dict. -/
theorem C5_counterexample :
    make_request outcomesHttpDate 3 = .raised ∧
    make_request outcomesNegative 3 = .raised := by
  decide

/-- C6 (amended): a 429 response whose `Retry-After` header parses to a
nonnegative value `v` (60 when the header is absent) makes the loop
sleep exactly `v` and retry — but the retry consumes one attempt of the
budget (one unit of fuel) and advances the attempt counter, so a timeout
on the following attempt backs off `2 ^ (i + 1)`, not `2 ^ i`. -/
theorem C6_429_retry_after (outcomes : Nat → Outcome) (n i fuel : Nat)
    (ra : Option String) (v : Int) (h429 : outcomes i = .http 429 ra)
    (hra : retryAfterVal ra = some v) (hv : 0 ≤ v)
    (ht : outcomes (i + 1) = .timeout) (hlt : i + 1 < n - 1) :
    makeRequestGo outcomes n (fuel + 2) i =
      sleepThen v.toNat
        (sleepThen (2 ^ (i + 1)) (makeRequestGo outcomes n fuel (i + 2))) := by
  have hvneg : ¬ v < 0 := by omega
  have e1 : makeRequestGo outcomes n (fuel + 2) i =
      sleepThen v.toNat (makeRequestGo outcomes n (fuel + 1) (i + 1)) := by
    conv_lhs => unfold makeRequestGo
    rw [h429]
    simp [hra, hvneg]
  have e2 : makeRequestGo outcomes n (fuel + 1) (i + 1) =
      sleepThen (2 ^ (i + 1)) (makeRequestGo outcomes n fuel (i + 2)) := by
    conv_lhs => unfold makeRequestGo
    rw [ht]
    simp [hlt]
  rw [e1, e2]

theorem C6_witness :
    make_request outcomes429Backoff 4
      = .dict { success := true, payload := some 7, sleeps := [5, 2, 4] } := by
  have h := C6_429_retry_after outcomes429Backoff 4 0 2 (some "5") 5 rfl
    (by decide) (by decide) rfl (by decide)
  have h0 : make_request outcomes429Backoff 4
      = makeRequestGo outcomes429Backoff 4 (2 + 2) 0 := rfl
  rw [h0, h]
  decide

/-- C6 counterexample: two 429 responses exhaust a budget of 2 attempts
even though a third attempt would have succeeded, and after a
`Retry-After: 5` response followed by two timeouts the sleep sequence is
[5, 2, 4] — the exponential counter was advanced by the 429 — not the
[5, 1, 2] the claim implies. -/
theorem C6_counterexample :
    make_request outcomes429Budget 2
        = .dict { success := false, payload := none, sleeps := [1, 1] } ∧
    make_request outcomes429Backoff 4
        = .dict { success := true, payload := some 7, sleeps := [5, 2, 4] } ∧
    ([5, 2, 4] : List Nat) ≠ [5, 1, 2] := by
  decide

/-- C7 (amended): `/api/v3/users/42` with title `Jane Doe` yields
`(42, "Jane Doe")`; an absent (falsy) link object yields `(None, None)`;
when the object exists but its href is falsy (missing key, null or
empty) the id is `None` while the title is whatever
`link_data.get('title', '')` gives; and a non-numeric last path segment
leaves the id `None`. -/
theorem C7_link_info :
    (extract_link_info (some ⟨.val "/api/v3/users/42", .val "Jane Doe"⟩)
        = (some 42, some "Jane Doe")) ∧
    (extract_link_info none = (none, none)) ∧
    (∀ l : LinkObj, strTruthy (l.href.getStr "") = false →
      (extract_link_info (some l)).1 = none ∧
      (extract_link_info (some l)).2 = l.title.getStr "") ∧
    (∀ (l : LinkObj) (s : String), l.href = .val s →
      (∀ seg, (pySplit '/' s).getLast? = some seg → pyToInt seg = none) →
      (extract_link_info (some l)).1 = none) := by
  refine ⟨by decide, rfl, ?_, ?_⟩
  · intro l h
    cases hh : l.href with
    | absent => simp [extract_link_info, JVal.getStr, hh]
    | null => simp [extract_link_info, JVal.getStr, hh]
    | val s =>
      rw [hh] at h
      simp only [JVal.getStr, strTruthy] at h
      simp only [decide_eq_false_iff_not, not_not] at h
      subst h
      simp [extract_link_info, JVal.getStr, hh]
  · intro l s hs hseg
    simp only [extract_link_info, hs, JVal.getStr]
    by_cases hempty : s = ""
    · simp [hempty]
    · simp only [hempty, ne_eq, not_false_eq_true, if_true]
      cases hgl : (pySplit '/' s).getLast? with
      | none => simp
      | some seg => simp [hseg seg hgl]

theorem C7_witness :
    (extract_link_info (some ⟨.null, .val "Jane Doe"⟩)).1 = none ∧
    (extract_link_info (some ⟨.val "/api/v3/users/me", .absent⟩)).1 = none :=
  ⟨(C7_link_info.2.2.1 ⟨.null, .val "Jane Doe"⟩ rfl).1,
   C7_link_info.2.2.2 ⟨.val "/api/v3/users/me", .absent⟩ "/api/v3/users/me" rfl
     (by decide)⟩

/-- C7 counterexample: a link object whose href key is missing but whose
title is `Jane Doe` returns `(None, 'Jane Doe')`, not the `(None, None)`
the claim asserts for every link object with a missing href. -/
theorem C7_counterexample :
    extract_link_info (some ⟨.absent, .val "Jane Doe"⟩) ≠ (none, none) ∧
    extract_link_info (some ⟨.absent, .val "Jane Doe"⟩) = (none, some "Jane Doe") := by
  decide

/-- The concrete work package of the C8 instances: an unmapped status
name with a truthy joined closed flag. -/
def cex8wp : WpJoined :=
  { wpBlank 7 with status_name := some "Archived", status_is_closed := some true }

/-- An unmapped status name on a work package whose closed flag is not
truthy. -/
def cex8wpOpen : WpJoined :=
  { wpBlank 8 with status_name := some "Archived" }

/-- C8 (amended): a work package whose non-empty status name is not a
key of the status mapping gets the default `TODO` bucket unless its
joined `status_is_closed` flag is truthy, in which case the status is
overridden to `DONE` (lines 190–195). -/
theorem C8_status_default (connId : Int) (baseUrl : String) (wp : WpJoined)
    (s : String) (hs : wp.status_name = some s) (hne : s ≠ "")
    (hum : status_mappings.find? (fun p => p.1 == s) = none) :
    (convert_work_package_to_issue connId baseUrl wp).status =
      if boolTruthy wp.status_is_closed then "DONE" else "TODO" := by
  have ho : orDefault wp.status_name "New" = s := by
    rw [hs]
    simp [orDefault, hne]
  show (if boolTruthy wp.status_is_closed then "DONE"
    else lookupD status_mappings (orDefault wp.status_name "New") "TODO") = _
  rw [ho]
  unfold lookupD
  rw [hum]

theorem C8_witness :
    (convert_work_package_to_issue 3 "u" cex8wp).status = "DONE" ∧
    (convert_work_package_to_issue 3 "u" cex8wpOpen).status = "TODO" := by
  have h1 := C8_status_default 3 "u" cex8wp "Archived" rfl (by decide) (by decide)
  have h2 := C8_status_default 3 "u" cex8wpOpen "Archived" rfl (by decide) (by decide)
  exact ⟨by rw [h1]; decide, by rw [h2]; decide⟩

/-- C8 counterexample: `Archived` is not a key of the status mapping,
yet the converted issue's status is `DONE`, not the claimed `TODO`,
because the work package's closed flag overrides the default. -/
theorem C8_counterexample :
    status_mappings.find? (fun p => p.1 == "Archived") = none ∧
    (convert_work_package_to_issue 3 "u" cex8wp).status ≠ "TODO" := by
  constructor
  · decide
  · show "DONE" ≠ "TODO"
    decide

/-- The concrete work package of the C9 instances: nonzero estimated and
spent hours. -/
def cex9ok : WpJoined :=
  { wpBlank 9 with estimated_hours := some 2, spent_hours := some (1/2) }

/-- Estimated hours present but zero, spent hours present: the truthiness
guard of line 211 skips the minutes conversion. -/
def cex9wp : WpJoined :=
  { wpBlank 7 with estimated_hours := some 0, spent_hours := some 1 }

/-- C9 (amended): when both hour values are present and nonzero and both
truncated minute values are nonzero, the converter computes
`remaining_minutes = max(0, estimated - spent)` over the
multiply-by-60-and-truncate minute conversions; the emitted issue row
carries the estimated minutes as `story_point` but has no field for the
remaining estimate. -/
theorem C9_remaining_estimate (connId : Int) (baseUrl : String) (wp : WpJoined)
    (e s : ℚ) (he : wp.estimated_hours = some e) (hs : wp.spent_hours = some s)
    (he0 : e ≠ 0) (hs0 : s ≠ 0)
    (hem : pyTrunc (e * 60) ≠ 0) (hsm : pyTrunc (s * 60) ≠ 0) :
    remaining_minutes wp = some (max 0 (pyTrunc (e * 60) - pyTrunc (s * 60))) ∧
    (convert_work_package_to_issue connId baseUrl wp).story_point
      = some (pyTrunc (e * 60)) := by
  have hem' : estimated_minutes wp = some (pyTrunc (e * 60)) := by
    simp [estimated_minutes, he, he0]
  have hsm' : spent_minutes wp = some (pyTrunc (s * 60)) := by
    simp [spent_minutes, hs, hs0]
  refine ⟨?_, ?_⟩
  · simp [remaining_minutes, hem', hsm', hem, hsm]
  · show estimated_minutes wp = some (pyTrunc (e * 60))
    exact hem'

theorem C9_witness :
    remaining_minutes cex9ok = some 90 ∧
    (convert_work_package_to_issue 3 "u" cex9ok).story_point = some 120 := by
  have e1 : ((2 : ℚ) * 60) = ((120 : ℤ) : ℚ) := by norm_num
  have e2 : ((1 / 2 : ℚ) * 60) = ((30 : ℤ) : ℚ) := by norm_num
  have t1 : pyTrunc ((2 : ℚ) * 60) = 120 := by rw [e1, pyTrunc_intCast]
  have t2 : pyTrunc ((1 / 2 : ℚ) * 60) = 30 := by rw [e2, pyTrunc_intCast]
  have h := C9_remaining_estimate 3 "u" cex9ok 2 (1 / 2) rfl rfl
    (by norm_num) (by norm_num) (by rw [t1]; decide) (by rw [t2]; decide)
  refine ⟨?_, ?_⟩
  · rw [h.1, t1, t2]; decide
  · rw [h.2, t1]

/-- C9 counterexample: with estimated hours present (0.0) and spent
hours present (1.0), the claim asks for a remaining estimate of
`max(0, 0 - 60) = 0`, but the converter's truthiness guard leaves
`remaining_minutes` unset (`None`). -/
theorem C9_counterexample :
    cex9wp.estimated_hours = some 0 ∧ cex9wp.spent_hours = some 1 ∧
    remaining_minutes cex9wp = none ∧
    remaining_minutes cex9wp
      ≠ some (max 0 (pyTrunc ((0 : ℚ) * 60) - pyTrunc ((1 : ℚ) * 60))) := by
  have hem : estimated_minutes cex9wp = none := by
    simp [estimated_minutes, cex9wp, wpBlank]
  have hr : remaining_minutes cex9wp = none := by
    simp [remaining_minutes, hem]
  exact ⟨rfl, rfl, hr, by rw [hr]; simp⟩

/-- C10: one conversion pass deletes exactly the connection's id-prefix
rows and re-inserts deterministic conversions, so a second pass over the
same tool rows reproduces the domain table exactly; and every domain id
is the deterministic function `openproject:WorkPackages:<connection>:<native>`
of the key pair. -/
theorem C10_idempotent_conversion (connId : Int) (baseUrl : String)
    (wps : List WpJoined) (issues : List Issue) :
    convert_issues connId baseUrl wps (convert_issues connId baseUrl wps issues)
      = convert_issues connId baseUrl wps issues ∧
    ∀ wp : WpJoined, (convert_work_package_to_issue connId baseUrl wp).id
      = mkIssueId connId wp.id := by
  refine ⟨?_, fun wp => rfl⟩
  unfold convert_issues
  rw [List.filter_append, filter_idem, filter_converted_nil, List.append_nil]

/-- Each valid id occurring in any non-null raw work-package page yields
exactly one tool row per run. -/
theorem extract_wp_count (connId : Int)
    (raws : List (Option (List WPElement))) (v : Int) (hv : v ≠ 0)
    (hex : ∃ pg ∈ raws.filterMap id, some v ∈ pg.map (fun e => e.id.getInt)) :
    ((extract_work_packages connId raws).map ToolWorkPackage.id).count (some v)
      = 1 := by
  unfold extract_work_packages
  rw [extractPagesGo_count (fun e => e.id.getInt)
    (extract_work_package_data connId) ToolWorkPackage.id (fun e => rfl) v hv]
  exact if_pos ⟨hex, by simp⟩

/-- Same for time-entry pages (processed newest first). -/
theorem extract_te_count (connId : Int)
    (raws : List (Option (List TEElement))) (v : Int) (hv : v ≠ 0)
    (hex : ∃ pg ∈ raws.filterMap id, some v ∈ pg.map (fun e => e.id.getInt)) :
    ((extract_time_entries connId raws).map ToolTimeEntry.id).count (some v)
      = 1 := by
  unfold extract_time_entries
  rw [extractPagesGo_count (fun e => e.id.getInt)
    (extract_time_entry_data connId) ToolTimeEntry.id (fun e => rfl) v hv]
  have hex' : ∃ pg ∈ (raws.filterMap id).reverse,
      some v ∈ pg.map (fun e => e.id.getInt) := by
    obtain ⟨pg, hm, hvm⟩ := hex
    exact ⟨pg, List.mem_reverse.mpr hm, hvm⟩
  exact if_pos ⟨hex', by simp⟩

/-- C2: during one extractor run over work-package (resp. time-entry)
raw pages, a valid native id that occurs in the pages — in however many
of them — produces exactly one tool row: the per-run set skips every
later occurrence. -/
theorem C2_dedup_per_run (connId : Int)
    (wpRaws : List (Option (List WPElement)))
    (teRaws : List (Option (List TEElement))) (v : Int) (hv : v ≠ 0) :
    ((∃ pg ∈ wpRaws.filterMap id, some v ∈ pg.map (fun e => e.id.getInt)) →
      ((extract_work_packages connId wpRaws).map ToolWorkPackage.id).count
        (some v) = 1) ∧
    ((∃ pg ∈ teRaws.filterMap id, some v ∈ pg.map (fun e => e.id.getInt)) →
      ((extract_time_entries connId teRaws).map ToolTimeEntry.id).count
        (some v) = 1) :=
  ⟨extract_wp_count connId wpRaws v hv, extract_te_count connId teRaws v hv⟩

/-- A bare work-package element with only an id. -/
def wpElem (i : Int) : WPElement := ⟨.val i, .absent, none, none, none⟩

/-- Work-package raw store with id 5 occurring in two non-null pages,
and a failed (null payload) row in between. -/
def wpRawsEx : List (Option (List WPElement)) :=
  [some [wpElem 5, wpElem 6], none, some [wpElem 5]]

/-- A bare time-entry element with only an id. -/
def teElem (i : Int) : TEElement := ⟨.val i, .absent, none, none⟩

/-- Time-entry raw store with id 9 occurring in two pages. -/
def teRawsEx : List (Option (List TEElement)) :=
  [some [teElem 9], some [teElem 9, teElem 4]]

theorem C2_witness :
    ((extract_work_packages 3 wpRawsEx).map ToolWorkPackage.id).count (some 5)
      = 1 ∧
    ((extract_time_entries 3 teRawsEx).map ToolTimeEntry.id).count (some 9)
      = 1 :=
  ⟨(C2_dedup_per_run 3 wpRawsEx teRawsEx 5 (by decide)).1 (by decide),
   (C2_dedup_per_run 3 wpRawsEx teRawsEx 9 (by decide)).2 (by decide)⟩

/-- C1 (amended): the work-package and time-entry extractors process
every non-null raw row — a valid id occurring in any such row reaches
the tool store; the project and user extractors instead parse only the
most recently created non-null raw row: its elements are exactly what is
written, and an id absent from that last row yields no tool row no
matter which earlier rows carried it. -/
theorem C1_raw_rows_processed (connId : Int) :
    (∀ (raws : List (Option (List WPElement))) (v : Int), v ≠ 0 →
      (∃ pg ∈ raws.filterMap id, some v ∈ pg.map (fun e => e.id.getInt)) →
      ∃ r ∈ extract_work_packages connId raws, r.id = some v) ∧
    (∀ (raws : List (Option (List TEElement))) (v : Int), v ≠ 0 →
      (∃ pg ∈ raws.filterMap id, some v ∈ pg.map (fun e => e.id.getInt)) →
      ∃ r ∈ extract_time_entries connId raws, r.id = some v) ∧
    (∀ (raws : List (Option (List ProjElement))) (pg : List ProjElement),
      (raws.filterMap id).getLast? = some pg →
      (extract_projects connId raws).map ToolProject.id
        = pg.map (fun e => e.id.getInt)) ∧
    (∀ (raws : List (Option (List ProjElement))) (pg : List ProjElement) (v : Int),
      (raws.filterMap id).getLast? = some pg →
      some v ∉ pg.map (fun e => e.id.getInt) →
      ∀ r ∈ extract_projects connId raws, r.id ≠ some v) ∧
    (∀ (raws : List (Option (List UserElement))) (pg : List UserElement),
      (raws.filterMap id).getLast? = some pg →
      (extract_users connId raws).map ToolUser.id
        = pg.map (fun e => e.id.getInt)) ∧
    (∀ (raws : List (Option (List UserElement))) (pg : List UserElement) (v : Int),
      (raws.filterMap id).getLast? = some pg →
      some v ∉ pg.map (fun e => e.id.getInt) →
      ∀ r ∈ extract_users connId raws, r.id ≠ some v) := by
  refine ⟨?_, ?_, ?_, ?_, ?_, ?_⟩
  · intro raws v hv hex
    have hc := extract_wp_count connId raws v hv hex
    have hmem : some v ∈ (extract_work_packages connId raws).map ToolWorkPackage.id := by
      by_contra hno
      rw [List.count_eq_zero.mpr hno] at hc
      omega
    obtain ⟨r, hr, hid⟩ := List.mem_map.mp hmem
    exact ⟨r, hr, hid⟩
  · intro raws v hv hex
    have hc := extract_te_count connId raws v hv hex
    have hmem : some v ∈ (extract_time_entries connId raws).map ToolTimeEntry.id := by
      by_contra hno
      rw [List.count_eq_zero.mpr hno] at hc
      omega
    obtain ⟨r, hr, hid⟩ := List.mem_map.mp hmem
    exact ⟨r, hr, hid⟩
  · intro raws pg h
    unfold extract_projects
    rw [h, List.map_map]
    rfl
  · intro raws pg v h hnot r hr hid
    unfold extract_projects at hr
    rw [h] at hr
    obtain ⟨e, he, rfl⟩ := List.mem_map.mp hr
    exact hnot (List.mem_map.mpr ⟨e, he, hid⟩)
  · intro raws pg h
    unfold extract_users
    rw [h, List.map_map]
    rfl
  · intro raws pg v h hnot r hr hid
    unfold extract_users at hr
    rw [h] at hr
    obtain ⟨e, he, rfl⟩ := List.mem_map.mp hr
    exact hnot (List.mem_map.mpr ⟨e, he, hid⟩)

theorem C1_witness :
    (∃ r ∈ extract_work_packages 3 wpRawsEx, r.id = some 6) ∧
    (∀ r ∈ extract_projects 3 projRawsEx, r.id ≠ some 1) :=
  ⟨(C1_raw_rows_processed 3).1 wpRawsEx 6 (by decide) (by decide),
   (C1_raw_rows_processed 3).2.2.2.1 projRawsEx [projElem 2] 1 (by decide)
     (by decide)⟩

/-- C1 counterexample: both raw project rows are non-null — the older
one holds the element with native id 1, the newer one the element with
native id 2 — yet the extracted tool rows contain no row for id 1: the
older row's elements do not contribute. -/
theorem C1_counterexample :
    (projRawsEx.filterMap id).map (fun pg => pg.map (fun e => e.id.getInt))
      = [[some 1], [some 2]] ∧
    ¬ ∃ r ∈ extract_projects 3 projRawsEx, r.id = some 1 := by
  decide
